import Mathlib

/-!
Shallow embedding of the `books-we-love` tracking core
(`src/books_we_love/datastore.py` and `src/books_we_love/tracker.py`).

Modelling conventions:
* Naive UTC timestamps (second precision) are modelled as `Nat` seconds;
  `datetime.timedelta` values are `Nat` seconds; `dt + delta` is `Nat`
  addition and `<`/`≤` are the `Nat` orders, matching Python's total order
  on naive datetimes.
* `datetime.isoformat` is injective on these timestamps, never returns the
  empty string, and `datetime.fromisoformat` is its left inverse; the
  serialized form is modelled by the wrapper type `IsoStr` carrying the
  timestamp it denotes.
* Python dicts are insertion-ordered maps with unique keys; the store is
  modelled as an association list `List (String × Payload)`; updating an
  existing key keeps its position, inserting a new key appends.
* In-place record mutation becomes pure functions returning the updated
  record.
-/

namespace BooksWeLove

/-- Naive UTC timestamp at second precision (`datetime.datetime`), as seconds. -/
abbrev DT := Nat

/-- Model of `datetime.timedelta`, as a number of seconds. -/
abbrev TimeDelta := Nat

/-- Model of the ISO-8601 string `d.isoformat()` of a naive second-precision
timestamp `d`: such strings are non-empty and in bijection with the
timestamps they denote, so the wrapper carries the denoted timestamp. -/
structure IsoStr where
  val : DT
deriving DecidableEq

/-- Model of `d.isoformat()` for a timestamp `d`. -/
def DT.isoformat (d : DT) : IsoStr := ⟨d⟩

/-- Embedding of `datastore._isoformat`: `None if dt is None else dt.isoformat()`. -/
def _isoformat (dt : Option DT) : Option IsoStr :=
  dt.map DT.isoformat

/-- Embedding of `datastore._parse_dt`: `None` on a falsy value, otherwise
`datetime.fromisoformat`.  An `IsoStr` is a well-formed non-empty ISO string,
so parsing it always succeeds and returns the denoted timestamp. -/
def _parse_dt (value : Option IsoStr) : Option DT :=
  value.map IsoStr.val

/-- Embedding of `datastore.Status`: tracking status values. -/
inductive Status
  | PENDING
  | IN_PROGRESS
  | TRACKED
  | FAILED
deriving DecidableEq

/-- The `.value` string of a `Status` member. -/
def Status.value : Status → String
  | .PENDING => "pending"
  | .IN_PROGRESS => "in_progress"
  | .TRACKED => "tracked"
  | .FAILED => "failed"

/-- Model of `Status(s)` on a string: `some` member on a valid value, `none` models the
`ValueError` raised on an unknown value. -/
def Status.fromString? (s : String) : Option Status :=
  if s = "pending" then some .PENDING
  else if s = "in_progress" then some .IN_PROGRESS
  else if s = "tracked" then some .TRACKED
  else if s = "failed" then some .FAILED
  else none

/-- Embedding of `datastore.BookRecord` (the dataclass, with its field defaults).
`remote_extra` is an opaque map preserved verbatim; it is modelled as an
association list. -/
structure BookRecord where
  key : String
  source_year : Int
  local_id : Int
  title : String
  author : String
  isbn10 : Option String
  isbn13 : Option String := none
  goodreads_id : Option String := none
  status : Status := .PENDING
  attempts : Int := 0
  last_attempt_at : Option DT := none
  next_retry_at : Option DT := none
  last_error : Option String := none
  remote_tracked : Bool := false
  remote_entity_type : Option String := none
  remote_api_id : Option String := none
  remote_extra : List (String × String) := []
deriving DecidableEq

/-- One value of the persisted state mapping: a record object of the schema
produced by `BookRecord.to_state` (all keys present; optional values may be
null). -/
structure Payload where
  source_year : Int
  local_id : Int
  title : String
  author : String
  isbn10 : Option String
  isbn13 : Option String
  goodreads_id : Option String
  status : String
  attempts : Int
  last_attempt_at : Option IsoStr
  next_retry_at : Option IsoStr
  last_error : Option String
  remote_tracked : Bool
  remote_entity_type : Option String
  remote_api_id : Option String
  remote_extra : List (String × String)
deriving DecidableEq

/-- Embedding of `BookRecord.to_state`. -/
def BookRecord.to_state (r : BookRecord) : Payload where
  source_year := r.source_year
  local_id := r.local_id
  title := r.title
  author := r.author
  isbn10 := r.isbn10
  isbn13 := r.isbn13
  goodreads_id := r.goodreads_id
  status := r.status.value
  attempts := r.attempts
  last_attempt_at := _isoformat r.last_attempt_at
  next_retry_at := _isoformat r.next_retry_at
  last_error := r.last_error
  remote_tracked := r.remote_tracked
  remote_entity_type := r.remote_entity_type
  remote_api_id := r.remote_api_id
  remote_extra := r.remote_extra

/-- Embedding of `BookRecord.from_state`: unknown status strings silently fall back to
`PENDING`; `extra or {}` maps a falsy (empty) extra map to the empty map. -/
def BookRecord.from_state (key : String) (payload : Payload) : BookRecord where
  key := key
  source_year := payload.source_year
  local_id := payload.local_id
  title := payload.title
  author := payload.author
  isbn10 := payload.isbn10
  isbn13 := payload.isbn13
  goodreads_id := payload.goodreads_id
  status := (Status.fromString? payload.status).getD .PENDING
  attempts := payload.attempts
  last_attempt_at := _parse_dt payload.last_attempt_at
  next_retry_at := _parse_dt payload.next_retry_at
  last_error := payload.last_error
  remote_tracked := payload.remote_tracked
  remote_entity_type := payload.remote_entity_type
  remote_api_id := payload.remote_api_id
  remote_extra := if payload.remote_extra.isEmpty then [] else payload.remote_extra

/-- The persisted state: `Dict[str, Dict[str, Any]]` keyed by `"{year}:{id}"`. -/
abbrev State := List (String × Payload)

/-- Model of `state.get(key)` on the state dict. -/
def stateGet (s : State) (key : String) : Option Payload :=
  (s.find? (fun kv => kv.1 == key)).map Prod.snd

/-- Model of `state[key] = v`: overwrite in place when the key exists (keeping its
position), append otherwise. -/
def stateSet (s : State) (key : String) (v : Payload) : State :=
  if (stateGet s key).isSome then
    s.map (fun kv => if kv.1 == key then (key, v) else kv)
  else
    s ++ [(key, v)]

/-- Contents of the persisted state file, as the `load_state` code observes
them: the file may be missing, may hold text that `json.load` rejects, may
hold valid JSON whose top-level value is not an object, or may hold a JSON
object of state entries (JSON object keys are already strings). -/
inductive FileData
  | missing
  | invalidJson
  | jsonNonObject
  | jsonObject (entries : State)
deriving DecidableEq

/-- A Python exception escaping a modelled function. -/
inductive PyError
  | attributeError
deriving DecidableEq

/-- Embedding of `datastore.load_state`: missing file yields `{}`; a `json.load` failure is
caught and yields `{}`; but `data.items()` sits outside the `try`, so valid
JSON that is not an object raises `AttributeError`; on an object the code
returns `{str(k): v for k, v in data.items()}`. -/
def load_state : FileData → Except PyError State
  | .missing => .ok []
  | .invalidJson => .ok []
  | .jsonNonObject => .error .attributeError
  | .jsonObject entries => .ok entries

/-- Embedding of `datastore.save_state_atomic`: writes the whole state as one JSON object
(via a temp file and atomic rename; the persisted contents are the state). -/
def save_state_atomic (state : State) : FileData :=
  .jsonObject state

/-- Embedding of `datastore._book_key`. -/
def _book_key (year : Int) (local_id : Int) : String :=
  s!"{year}:{local_id}"

/-- One entry of a local `best-books-{year}.json` list.  `id` is required
(`int(book["id"])`); the other fields go through `.get` with defaults. -/
structure Book where
  id : Int
  title : Option String := none
  author : Option String := none
  cover : Option String := none
deriving DecidableEq

/-- Model of `str(book.get("cover") or "").strip() or None`. -/
def coverIsbn10 (cover : Option String) : Option String :=
  let s := (cover.getD "").trim
  if s = "" then none else some s

/-- The fresh record `datastore.ensure_book_entry` builds for a new key
(all remaining `BookRecord` fields take their dataclass defaults). -/
def seedRecord (year : Int) (book : Book) : BookRecord where
  key := _book_key year book.id
  source_year := year
  local_id := book.id
  title := (book.title.getD "").trim
  author := (book.author.getD "").trim
  isbn10 := coverIsbn10 book.cover

/-- Embedding of `datastore.ensure_book_entry`: a no-op when the key is present,
otherwise stores the fresh record's `to_state` payload under the key. -/
def ensure_book_entry (state : State) (year : Int) (book : Book) : State :=
  let key := _book_key year book.id
  if (stateGet state key).isSome then state
  else state ++ [(key, (seedRecord year book).to_state)]

/-- Embedding of `datastore.mark_in_progress`. -/
def mark_in_progress (record : BookRecord) (now : DT) : BookRecord :=
  { record with status := .IN_PROGRESS, last_attempt_at := some now }

/-- Embedding of `datastore.mark_tracked` (`extra or {}` maps a falsy extra to `{}`). -/
def mark_tracked (record : BookRecord) (entity_type : String) (api_id : String)
    (extra : Option (List (String × String))) (now : DT) : BookRecord :=
  { record with
    status := .TRACKED
    remote_tracked := true
    remote_entity_type := some entity_type
    remote_api_id := some api_id
    remote_extra :=
      match extra with
      | none => []
      | some e => if e.isEmpty then [] else e
    next_retry_at := none
    last_attempt_at := some now
    last_error := none }

/-- Embedding of `datastore._backoff_for_attempt`: stepped backoff 15m, 1h, 6h, then a
24h cap, in seconds. -/
def _backoff_for_attempt (attempts : Int) : TimeDelta :=
  if attempts ≤ 1 then 15 * 60
  else if attempts = 2 then 60 * 60
  else if attempts = 3 then 6 * 60 * 60
  else 24 * 60 * 60

/-- Model of `if max_attempts is not None and record.attempts >= max_attempts`. -/
def maxAttemptsReached (max_attempts : Option Int) (attempts : Int) : Bool :=
  match max_attempts with
  | none => false
  | some m => attempts ≥ m

/-- Embedding of `datastore.mark_failed_with_backoff`. -/
def mark_failed_with_backoff (record : BookRecord) (error : String)
    (max_attempts : Option Int) (now : DT) : BookRecord :=
  let record := { record with
    attempts := record.attempts + 1
    last_error := some error
    last_attempt_at := some now }
  if maxAttemptsReached max_attempts record.attempts then
    { record with status := .FAILED, next_retry_at := none }
  else
    { record with
      status := .FAILED
      next_retry_at := some (now + _backoff_for_attempt record.attempts) }

/-- Embedding of `datastore.reset_record`. -/
def reset_record (record : BookRecord) : BookRecord :=
  { record with
    status := .PENDING
    attempts := 0
    last_attempt_at := none
    next_retry_at := none
    last_error := none }

/-- The year filter of `iter_pending`: `year is not None and
record.source_year != year`. -/
def skipYear (year : Option Int) (record : BookRecord) : Bool :=
  match year with
  | none => false
  | some y => record.source_year != y

/-- The retry-time filter of `iter_pending`: the record is FAILED and
`next_retry_at` is set and strictly in the future. -/
def retrySkip (record : BookRecord) (now : DT) : Bool :=
  record.status == Status.FAILED &&
    match record.next_retry_at with
    | none => false
    | some t => now < t

/-- The `for key, payload in state.items()` loop of `iter_pending`, carrying
the yielded count: after yielding, the generator returns once
`count >= limit`. -/
def iterPendingGo (allowed : List Status) (now : DT) (year : Option Int)
    (limit : Option Nat) : State → Nat → List (String × BookRecord)
  | [], _ => []
  | (key, payload) :: rest, count =>
    let record := BookRecord.from_state key payload
    if skipYear year record then
      iterPendingGo allowed now year limit rest count
    else if record.status ∉ allowed then
      iterPendingGo allowed now year limit rest count
    else if retrySkip record now then
      iterPendingGo allowed now year limit rest count
    else
      (key, record) ::
        (match limit with
          | some l => if count + 1 ≥ l then [] else
              iterPendingGo allowed now year limit rest (count + 1)
          | none => iterPendingGo allowed now year limit rest (count + 1))

/-- Embedding of `datastore.iter_pending`.  With no status filter only PENDING and FAILED
are allowed; an explicit filter restricts to exactly that status, and an
invalid status string (`ValueError`) yields nothing. -/
def iter_pending (state : State) (now : DT) (limit : Option Nat)
    (year : Option Int) (status : Option String) : List (String × BookRecord) :=
  match status with
  | none => iterPendingGo [.PENDING, .FAILED] now year limit state 0
  | some sv =>
    match Status.fromString? sv with
    | none => []
    | some st => iterPendingGo [st] now year limit state 0

/-- The keyword arguments `tracker.track_books` passes to
`api_client.search_book`. -/
structure SearchArgs where
  isbn10 : Option String
  isbn13 : Option String
  goodreads_id : Option String
  author : String
  title : String
deriving DecidableEq

/-- Embedding of `api_client.ApiResult` (with its dataclass defaults). -/
structure ApiResult where
  found : Bool
  entity_type : String := "book"
  api_id : Option String := none
  extra : List (String × String) := []
deriving DecidableEq

/-- What one `search_book` call does: return an `ApiResult` or raise. -/
inductive SearchOutcome
  | ok (result : ApiResult)
  | exc (msg : String)

/-- The external Lookup Collaborator, as the tracker observes it. -/
abbrev Oracle := SearchArgs → SearchOutcome

/-- The arguments `track_books` builds from the record being processed. -/
def searchArgsOf (rec : BookRecord) : SearchArgs where
  isbn10 := rec.isbn10
  isbn13 := rec.isbn13
  goodreads_id := rec.goodreads_id
  author := rec.author
  title := rec.title

/-- Truthiness of `result.api_id` (a falsy `api_id` is `None` or `""`). -/
def apiIdTruthy : Option String → Bool
  | none => false
  | some s => s != ""

/-- Model of `result.found and result.api_id and result.entity_type`, then
`mark_tracked` on success and `mark_failed_with_backoff` otherwise; an
exception from `search_book` is caught and also marks failure with the
exception's message. -/
def applyOutcome (rec : BookRecord) (outcome : SearchOutcome)
    (max_attempts : Int) (now : DT) : BookRecord :=
  match outcome with
  | .exc msg => mark_failed_with_backoff rec msg (some max_attempts) now
  | .ok result =>
    if result.found && apiIdTruthy result.api_id && result.entity_type != "" then
      mark_tracked rec result.entity_type (result.api_id.getD "")
        (some result.extra) now
    else
      mark_failed_with_backoff rec "not found" (some max_attempts) now

/-- The body of the main `for key, rec in datastore.iter_pending(...)` loop of
`track_books`, over the up-front list of selected records.  (The Python loop
drives a generator while mutating `state`, but each iteration only overwrites
the payload of the key it just received — keys the generator has not reached
yet keep their original payloads — so the selection equals the list the
generator yields on the untouched state.)  Returns the final state, the
`search_book` calls made, and the keys processed, in order. -/
def loopGo (oracle : Oracle) (now : DT) (max_attempts : Int) :
    State → List (String × BookRecord) → State × List SearchArgs × List String
  | state, [] => (state, [], [])
  | state, (key, rec) :: rest =>
    let rec1 := mark_in_progress rec now
    let state1 := stateSet state key rec1.to_state
    let args := searchArgsOf rec1
    let rec2 := applyOutcome rec1 (oracle args) max_attempts now
    let state2 := stateSet state1 key rec2.to_state
    let out := loopGo oracle now max_attempts state2 rest
    (out.1, args :: out.2.1, key :: out.2.2)

/-- The non-dry-run reconciliation loop of `track_books` (tracker.py lines
234-319): select with `iter_pending` under the limit, then process each
selected record, persisting after every transition. -/
def trackLoop (state : State) (now : DT) (limit : Nat) (year : Option Int)
    (status : Option String) (oracle : Oracle) (max_attempts : Int) :
    State × List SearchArgs × List String :=
  loopGo oracle now max_attempts state
    (iter_pending state now (some limit) year status)

/-- The seeding pass of `track_books`: `ensure_book_entry` over every local
book, in file order. -/
def seedAll (state : State) (books : List (Int × Book)) : State :=
  books.foldl (fun st yb => ensure_book_entry st yb.1 yb.2) state

/-- The parameters of `track_books`. -/
structure TrackParams where
  year : Option Int := none
  status : Option String := none
  book_id : Option Int := none
  limit : Nat := 10
  max_attempts : Int := 5
  dry_run : Bool := false

/-- The externally visible effects of one `track_books` run: the final
persisted state, the `search_book` calls made, and the keys of the records
that underwent lifecycle transitions. -/
structure TrackResult where
  state : State
  calls : List SearchArgs
  transitioned : List String
deriving DecidableEq

/-- Whether the single-book branch rejects the record for the explicit
status filter (`rec.status.value != status`). -/
def statusFilterRejects (status : Option String) (rec : BookRecord) : Bool :=
  match status with
  | none => false
  | some sf => rec.status.value != sf

/-- Embedding of `tracker.track_books`, over the already-downloaded local book lists
(year, book) and the loaded state.  Printing and report formatting are
dropped; every early `return` yields the state as last saved (the seeded
state) with no calls and no transitions. -/
def track_books (p : TrackParams) (localBooks : List (Int × Book))
    (state0 : State) (oracle : Oracle) (now : DT) : TrackResult :=
  let state := seedAll state0 localBooks
  if localBooks.isEmpty then
    ⟨state, [], []⟩
  else
    match p.book_id with
    | some bid =>
      match p.year with
      | none => ⟨state, [], []⟩
      | some y =>
        let key := s!"{y}:{bid}"
        match stateGet state key with
        | none => ⟨state, [], []⟩
        | some payload =>
          let rec0 := BookRecord.from_state key payload
          if statusFilterRejects p.status rec0 then ⟨state, [], []⟩
          else if p.status.isNone &&
              (rec0.status ∉ [Status.PENDING, Status.FAILED] : Bool) then
            ⟨state, [], []⟩
          else if retrySkip rec0 now then ⟨state, [], []⟩
          else if p.dry_run then ⟨state, [], []⟩
          else
            let rec1 := mark_in_progress rec0 now
            let state1 := stateSet state key rec1.to_state
            let args := searchArgsOf rec1
            let rec2 := applyOutcome rec1 (oracle args) p.max_attempts now
            let state2 := stateSet state1 key rec2.to_state
            ⟨state2, [args], [key]⟩
    | none =>
      if p.dry_run then
        ⟨state, [], []⟩
      else
        let out := trackLoop state now p.limit p.year p.status oracle p.max_attempts
        ⟨out.1, out.2.1, out.2.2⟩

/-- Spec-side eligibility predicate, stated from the spec's words for
comparison with `iter_pending`: eligible iff status ∈ {PENDING, FAILED}
(or exactly the explicit status filter) and (status ≠ FAILED or
`next_retry_at` absent or `next_retry_at ≤ now`). -/
def specEligible (r : BookRecord) (now : DT) (sf : Option Status) : Bool :=
  (match sf with
    | none => r.status == Status.PENDING || r.status == Status.FAILED
    | some st => r.status == st) &&
  (!(r.status == Status.FAILED) ||
    match r.next_retry_at with
    | none => true
    | some t => t ≤ now)

/-! ### Concrete fixtures used by witnesses and counterexamples -/

/-- A FAILED record whose `next_retry_at` is set (to 100). -/
def failedRec : BookRecord where
  key := "2013:9"
  source_year := 2013
  local_id := 9
  title := "T"
  author := "A"
  isbn10 := none
  status := .FAILED
  attempts := 2
  next_retry_at := some 100

/-- A local book entry fixture. -/
def bookA : Book where
  id := 1
  title := some "Book One"
  author := some "Author One"
  cover := some "1111111111"

/-- A fresh PENDING record with local id `i`. -/
def pendingRec (i : Int) : BookRecord :=
  seedRecord 2013 { id := i, title := some "T", author := some "A" }

/-- A state of five freshly seeded (hence eligible) PENDING records. -/
def fixState5 : State :=
  [(_book_key 2013 1, (pendingRec 1).to_state),
   (_book_key 2013 2, (pendingRec 2).to_state),
   (_book_key 2013 3, (pendingRec 3).to_state),
   (_book_key 2013 4, (pendingRec 4).to_state),
   (_book_key 2013 5, (pendingRec 5).to_state)]

/-- A lookup collaborator that never finds anything. -/
def oracleNotFound : Oracle := fun _ => .ok { found := false }

/-! ### Helper lemmas about the state map -/

theorem stateGet_append_self (s : State) (k : String) (v : Payload) :
    (stateGet (s ++ [(k, v)]) k).isSome := by
  unfold stateGet
  rw [List.find?_append]
  cases h : s.find? (fun kv => kv.1 == k) with
  | none => simp [Option.or]
  | some kv => simp [Option.or]

theorem find?_map_set (t : State) (k k' : String) (v : Payload) (h : k ≠ k') :
    (t.map (fun kv => if kv.1 == k' then (k', v) else kv)).find?
        (fun kv => kv.1 == k) =
      t.find? (fun kv => kv.1 == k) := by
  have hp : ((fun kv => kv.1 == k) ∘
      (fun kv : String × Payload => if kv.1 == k' then (k', v) else kv)) =
      (fun kv : String × Payload => kv.1 == k) := by
    funext kv
    by_cases hkv : kv.1 = k'
    · have h2 : (k' == k) = false :=
        beq_eq_false_iff_ne.mpr (fun hh => h hh.symm)
      simp [Function.comp, hkv, h2]
    · simp [Function.comp, beq_eq_false_iff_ne.mpr hkv]
  rw [List.find?_map, hp]
  cases hfind : t.find? (fun kv => kv.1 == k) with
  | none => rfl
  | some e =>
    have he : e.1 = k := by
      have h0 := List.find?_some hfind
      simpa using h0
    have he' : (e.1 == k') = false := by
      refine beq_eq_false_iff_ne.mpr ?_
      rw [he]; exact h
    simp [he']
    intro hc
    rw [he] at hc
    exact absurd hc h

theorem stateGet_set_ne (s : State) (k' : String) (v : Payload) (k : String)
    (h : k ≠ k') : stateGet (stateSet s k' v) k = stateGet s k := by
  unfold stateSet
  split
  · unfold stateGet
    rw [find?_map_set s k k' v h]
  · unfold stateGet
    rw [List.find?_append]
    have h2 : (k' == k) = false := by
      simp [beq_eq_false_iff_ne]; exact fun hh => h hh.symm
    simp only [List.find?, h2, Bool.false_eq_true, if_false]
    cases s.find? (fun kv => kv.1 == k) <;> simp [Option.or]

/-! ### Round-trip lemmas -/

theorem status_value_round (st : Status) : Status.fromString? st.value = some st := by
  cases st <;> rfl

theorem from_state_to_state (r : BookRecord) :
    BookRecord.from_state r.key r.to_state = r := by
  cases r with
  | mk key source_year local_id title author isbn10 isbn13 goodreads_id
      status attempts laa nra le rt ret rai rex =>
    cases status <;> cases laa <;> cases nra <;> cases rex <;> rfl

/-! ### Claim theorems -/

/-- C10: `reset_record` changes only status (to PENDING), attempts (to 0),
`last_attempt_at`, `next_retry_at` and `last_error` (to absent); identity
fields, identifiers and remote-result fields are unchanged. -/
theorem c10_reset_record_frame (r : BookRecord) :
    (reset_record r).status = Status.PENDING ∧
    (reset_record r).attempts = 0 ∧
    (reset_record r).last_attempt_at = none ∧
    (reset_record r).next_retry_at = none ∧
    (reset_record r).last_error = none ∧
    (reset_record r).key = r.key ∧
    (reset_record r).source_year = r.source_year ∧
    (reset_record r).local_id = r.local_id ∧
    (reset_record r).title = r.title ∧
    (reset_record r).author = r.author ∧
    (reset_record r).isbn10 = r.isbn10 ∧
    (reset_record r).isbn13 = r.isbn13 ∧
    (reset_record r).goodreads_id = r.goodreads_id ∧
    (reset_record r).remote_tracked = r.remote_tracked ∧
    (reset_record r).remote_entity_type = r.remote_entity_type ∧
    (reset_record r).remote_api_id = r.remote_api_id ∧
    (reset_record r).remote_extra = r.remote_extra :=
  ⟨rfl, rfl, rfl, rfl, rfl, rfl, rfl, rfl, rfl, rfl, rfl, rfl, rfl, rfl, rfl,
    rfl, rfl⟩

/-- C1 is false as stated: `mark_in_progress` transitions a FAILED record
away from FAILED yet leaves `next_retry_at` non-absent. -/
theorem c1_counterexample :
    failedRec.status = Status.FAILED ∧
    (mark_in_progress failedRec 50).status ≠ Status.FAILED ∧
    (mark_in_progress failedRec 50).next_retry_at = some 100 := by
  refine ⟨rfl, ?_, rfl⟩
  decide

/-- C1 amended: `mark_tracked` and `reset_record` leave `next_retry_at`
absent, while `mark_in_progress` leaves it unchanged (it does not clear it). -/
theorem c1_amended_next_retry (r : BookRecord) (et api : String)
    (extra : Option (List (String × String))) (now : DT) :
    (mark_tracked r et api extra now).next_retry_at = none ∧
    (reset_record r).next_retry_at = none ∧
    (mark_in_progress r now).next_retry_at = r.next_retry_at :=
  ⟨rfl, rfl, rfl⟩

/-- C4: a failed lookup increments attempts by one, records the error, sets
status FAILED, and sets `next_retry_at` to now plus the backoff delay unless
the incremented attempts reach `max_attempts`, in which case it is absent. -/
theorem c4_mark_failed_with_backoff (r : BookRecord) (e : String) (m : Int)
    (now : DT) :
    (mark_failed_with_backoff r e (some m) now).attempts = r.attempts + 1 ∧
    (mark_failed_with_backoff r e (some m) now).last_error = some e ∧
    (mark_failed_with_backoff r e (some m) now).status = Status.FAILED ∧
    (mark_failed_with_backoff r e (some m) now).next_retry_at =
      (if r.attempts + 1 ≥ m then none
        else some (now + _backoff_for_attempt (r.attempts + 1))) := by
  unfold mark_failed_with_backoff maxAttemptsReached
  by_cases hm : r.attempts + 1 ≥ m
  · simp [hm]
  · simp [hm]

theorem backoff_mono (n m : Int) (h : n ≤ m) :
    _backoff_for_attempt n ≤ _backoff_for_attempt m := by
  unfold _backoff_for_attempt
  split_ifs <;> (try norm_num) <;> omega

/-- C5: the backoff delay is 15 minutes for attempt 1, 1 hour for attempt 2,
6 hours for attempt 3, 24 hours for every attempt ≥ 4, is monotonically
non-decreasing, and `next_retry_at` is the failure time plus this delay. -/
theorem c5_backoff_schedule (n m k : Int) (_h1 : 1 ≤ n) (h2 : n ≤ m)
    (h3 : 4 ≤ k) (r : BookRecord) (e : String) (now : DT) :
    _backoff_for_attempt 1 = 15 * 60 ∧
    _backoff_for_attempt 2 = 60 * 60 ∧
    _backoff_for_attempt 3 = 6 * 60 * 60 ∧
    _backoff_for_attempt k = 24 * 60 * 60 ∧
    _backoff_for_attempt n ≤ _backoff_for_attempt m ∧
    (mark_failed_with_backoff r e none now).next_retry_at =
      some (now + _backoff_for_attempt (r.attempts + 1)) := by
  refine ⟨by decide, by decide, by decide, ?_, backoff_mono n m h2, ?_⟩
  · unfold _backoff_for_attempt
    rw [if_neg (by omega), if_neg (by omega), if_neg (by omega)]
  · unfold mark_failed_with_backoff maxAttemptsReached
    simp

/-- Witness for C5 at `n = 1`, `m = 2`, `k = 4` and a concrete record. -/
theorem c5_backoff_schedule_witness :
    (1 : Int) ≤ 1 ∧ (1 : Int) ≤ 2 ∧ (4 : Int) ≤ 4 ∧
    (_backoff_for_attempt 1 = 15 * 60 ∧
     _backoff_for_attempt 2 = 60 * 60 ∧
     _backoff_for_attempt 3 = 6 * 60 * 60 ∧
     _backoff_for_attempt 4 = 24 * 60 * 60 ∧
     _backoff_for_attempt 1 ≤ _backoff_for_attempt 2 ∧
     (mark_failed_with_backoff failedRec "e" none 0).next_retry_at =
       some (0 + _backoff_for_attempt (failedRec.attempts + 1))) :=
  ⟨by decide, by decide, by decide,
    c5_backoff_schedule 1 2 4 (by decide) (by decide) (by decide)
      failedRec "e" 0⟩

/-- C6: `ensure_book_entry` inserts a fresh PENDING record with zero attempts
iff the key is absent, is a no-op when the key is present, and is idempotent. -/
theorem c6_ensure_book_entry (state : State) (year : Int) (book : Book) :
    ensure_book_entry (ensure_book_entry state year book) year book =
      ensure_book_entry state year book ∧
    (if (stateGet state (_book_key year book.id)).isSome then
      ensure_book_entry state year book = state
    else
      ensure_book_entry state year book =
        state ++ [(_book_key year book.id, (seedRecord year book).to_state)]) ∧
    (seedRecord year book).status = Status.PENDING ∧
    (seedRecord year book).attempts = 0 := by
  refine ⟨?_, ?_, rfl, rfl⟩
  · unfold ensure_book_entry
    by_cases hp : (stateGet state (_book_key year book.id)).isSome
    · simp [hp]
    · simp [hp, stateGet_append_self]
  · unfold ensure_book_entry
    by_cases hp : (stateGet state (_book_key year book.id)).isSome
    · simp [hp]
    · simp [hp]

/-- C7: saving a record set and loading it back reproduces it exactly, and
decoding each stored payload restores the original record (absent optional
fields stay absent). -/
theorem c7_save_load_round_trip (rs : List BookRecord) :
    load_state (save_state_atomic (rs.map fun r => (r.key, r.to_state))) =
      Except.ok (rs.map fun r => (r.key, r.to_state)) ∧
    rs.map (fun r => BookRecord.from_state r.key r.to_state) = rs :=
  ⟨rfl, by simp [from_state_to_state]⟩

/-- C8: `load_state` does return an empty store on a missing file and on text
`json.load` rejects, but raises `AttributeError` when the file holds valid
JSON whose top-level value is not an object (`data.items()` is outside the
`try`). -/
theorem c8_load_state_eval :
    load_state FileData.missing = Except.ok [] ∧
    load_state FileData.invalidJson = Except.ok [] ∧
    load_state FileData.jsonNonObject = Except.error PyError.attributeError :=
  ⟨rfl, rfl, rfl⟩

/-! ### `iter_pending` as a filter (no limit) -/

theorem iterPendingGo_none (allowed : List Status) (now : DT)
    (year : Option Int) :
    ∀ (xs : State) (count : Nat),
    iterPendingGo allowed now year none xs count =
      (xs.map fun kp => (kp.1, BookRecord.from_state kp.1 kp.2)).filter
        (fun kr => !skipYear year kr.2 && decide (kr.2.status ∈ allowed) &&
          !retrySkip kr.2 now)
  | [], _ => rfl
  | (k, p) :: rest, count => by
    simp only [iterPendingGo, List.map_cons, List.filter]
    by_cases h1 : skipYear year (BookRecord.from_state k p) = true
    · simp [h1, iterPendingGo_none allowed now year rest count]
    · by_cases h2 : (BookRecord.from_state k p).status ∈ allowed
      · by_cases h3 : retrySkip (BookRecord.from_state k p) now = true
        · simp [h1, h2, h3, iterPendingGo_none allowed now year rest count]
        · simp [h1, h2, h3, iterPendingGo_none allowed now year rest (count + 1)]
      · simp [h1, h2, iterPendingGo_none allowed now year rest count]

theorem decide_lt_eq_not_decide_le (a b : Nat) :
    decide (a < b) = !decide (b ≤ a) := by
  by_cases h : a < b
  · simp [h, Nat.not_le.mpr h]
  · simp [h, Nat.not_lt.mp h]

theorem pass_eq_specEligible_none (r : BookRecord) (now : DT) :
    (!skipYear none r &&
      decide (r.status ∈ [Status.PENDING, Status.FAILED]) &&
      !retrySkip r now) = specEligible r now none := by
  cases hs : r.status <;>
    cases hn : r.next_retry_at <;>
      simp [skipYear, retrySkip, specEligible, hs, hn,
        decide_lt_eq_not_decide_le, Bool.not_not]

theorem pass_eq_specEligible_some (r : BookRecord) (now : DT) (st : Status) :
    (!skipYear none r && decide (r.status ∈ [st]) && !retrySkip r now) =
      specEligible r now (some st) := by
  cases hs : r.status <;> cases st <;>
    cases hn : r.next_retry_at <;>
      simp [skipYear, retrySkip, specEligible, hs, hn,
        decide_lt_eq_not_decide_le, Bool.not_not]

/-- C3: with no limit and no year filter, `iter_pending` yields exactly the
records of the store that satisfy the spec's eligibility predicate: status in
{PENDING, FAILED} when no filter is given (exactly the filter's status
otherwise), and, for FAILED records, `next_retry_at` absent or ≤ now — so a
FAILED record with `next_retry_at` in the future is never yielded and is
yielded once now reaches it. -/
theorem c3_iter_pending_eligibility (state : State) (now : DT)
    (sf : Option Status) (key : String) (r : BookRecord) :
    (key, r) ∈ iter_pending state now none none (sf.map Status.value) ↔
      (∃ p, (key, p) ∈ state ∧ r = BookRecord.from_state key p) ∧
        specEligible r now sf = true := by
  have main :
      iter_pending state now none none (sf.map Status.value) =
        (state.map fun kp => (kp.1, BookRecord.from_state kp.1 kp.2)).filter
          (fun kr => specEligible kr.2 now sf) := by
    cases sf with
    | none =>
      have h0 : iter_pending state now none none (Option.map Status.value none) =
          iterPendingGo [.PENDING, .FAILED] now none none state 0 := rfl
      have hfun :
          (fun kr : String × BookRecord =>
            !skipYear none kr.2 &&
              decide (kr.2.status ∈ [Status.PENDING, Status.FAILED]) &&
              !retrySkip kr.2 now) =
          (fun kr : String × BookRecord => specEligible kr.2 now none) :=
        funext fun kr => pass_eq_specEligible_none kr.2 now
      rw [h0, iterPendingGo_none, hfun]
    | some st =>
      have h0 : iter_pending state now none none
            (Option.map Status.value (some st)) =
          iterPendingGo [st] now none none state 0 := by
        show (match Status.fromString? st.value with
          | none => ([] : List (String × BookRecord))
          | some s => iterPendingGo [s] now none none state 0) =
          iterPendingGo [st] now none none state 0
        rw [status_value_round]
      have hfun :
          (fun kr : String × BookRecord =>
            !skipYear none kr.2 && decide (kr.2.status ∈ [st]) &&
              !retrySkip kr.2 now) =
          (fun kr : String × BookRecord => specEligible kr.2 now (some st)) :=
        funext fun kr => pass_eq_specEligible_some kr.2 now st
      rw [h0, iterPendingGo_none, hfun]
  rw [main, List.mem_filter, List.mem_map]
  constructor
  · rintro ⟨⟨kp, hkp, heq⟩, helig⟩
    obtain ⟨hk1, hk2⟩ := Prod.mk.injEq .. ▸ heq
    refine ⟨⟨kp.2, ?_, ?_⟩, helig⟩
    · rw [← hk1]; exact hkp
    · rw [← hk2, hk1]
  · rintro ⟨⟨p, hp, hr⟩, helig⟩
    exact ⟨⟨(key, p), hp, by rw [hr]⟩, helig⟩

/-! ### Seeding and the dry-run branch of `track_books` -/

theorem stateGet_append_of_isSome (s : State) (k : String) (l : State)
    (hk : (stateGet s k).isSome) : stateGet (s ++ l) k = stateGet s k := by
  unfold stateGet at *
  rw [List.find?_append]
  cases hf : s.find? (fun kv => kv.1 == k) with
  | none => rw [hf] at hk; simp at hk
  | some e => simp [Option.or]

theorem stateGet_ensure_of_isSome (s : State) (year : Int) (book : Book)
    (k : String) (hk : (stateGet s k).isSome) :
    stateGet (ensure_book_entry s year book) k = stateGet s k := by
  unfold ensure_book_entry
  by_cases hp : (stateGet s (_book_key year book.id)).isSome
  · simp [hp]
  · simp only [hp, Bool.false_eq_true, if_false]
    exact stateGet_append_of_isSome s k _ hk

theorem stateGet_seedAll (k : String) :
    ∀ (books : List (Int × Book)) (s : State), (stateGet s k).isSome →
    stateGet (seedAll s books) k = stateGet s k
  | [], _, _ => rfl
  | b :: bs, s, hk => by
    have hstep : seedAll s (b :: bs) = seedAll (ensure_book_entry s b.1 b.2) bs :=
      rfl
    have h1 : stateGet (ensure_book_entry s b.1 b.2) k = stateGet s k :=
      stateGet_ensure_of_isSome s b.1 b.2 k hk
    rw [hstep, stateGet_seedAll k bs _ (by rw [h1]; exact hk), h1]

theorem track_books_dry (p : TrackParams) (books : List (Int × Book))
    (state0 : State) (oracle : Oracle) (now : DT) (h : p.dry_run = true) :
    track_books p books state0 oracle now = ⟨seedAll state0 books, [], []⟩ := by
  unfold track_books
  split
  · rfl
  split
  · split
    · rfl
    dsimp only
    split
    · rfl
    split_ifs <;> simp_all
  · simp [h]

/-- C2 is false as stated: a dry run still runs the seeding pass, which can
grow the persisted store (here from empty to one PENDING entry). -/
theorem c2_counterexample :
    (track_books { dry_run := true } [(2013, bookA)] [] oracleNotFound 0).state ≠
      ([] : State) := by
  rw [track_books_dry _ _ _ _ _ rfl]
  decide

/-- C2 amended: with `dry_run = true`, `track_books` never calls
`search_book` and performs no record transitions; the persisted store is
exactly the seeded store, and every key already present keeps its payload
unchanged (only new entries can be added, by seeding). -/
theorem c2_amended_dry_run (p : TrackParams) (books : List (Int × Book))
    (state0 : State) (oracle : Oracle) (now : DT) (k : String)
    (hdry : p.dry_run = true) (hk : (stateGet state0 k).isSome) :
    (track_books p books state0 oracle now).calls = [] ∧
    (track_books p books state0 oracle now).transitioned = [] ∧
    (track_books p books state0 oracle now).state = seedAll state0 books ∧
    stateGet (track_books p books state0 oracle now).state k =
      stateGet state0 k := by
  rw [track_books_dry p books state0 oracle now hdry]
  exact ⟨rfl, rfl, rfl, stateGet_seedAll k books state0 hk⟩

/-- Witness for C2 (amended) at a concrete dry run over one local book and a
store holding one FAILED record. -/
theorem c2_amended_dry_run_witness :
    (TrackParams.dry_run { dry_run := true } = true) ∧
    (stateGet [("2013:9", failedRec.to_state)] "2013:9").isSome ∧
    ((track_books { dry_run := true } [(2013, bookA)]
        [("2013:9", failedRec.to_state)] oracleNotFound 0).calls = [] ∧
     (track_books { dry_run := true } [(2013, bookA)]
        [("2013:9", failedRec.to_state)] oracleNotFound 0).transitioned = [] ∧
     (track_books { dry_run := true } [(2013, bookA)]
        [("2013:9", failedRec.to_state)] oracleNotFound 0).state =
       seedAll [("2013:9", failedRec.to_state)] [(2013, bookA)] ∧
     stateGet (track_books { dry_run := true } [(2013, bookA)]
        [("2013:9", failedRec.to_state)] oracleNotFound 0).state "2013:9" =
       stateGet [("2013:9", failedRec.to_state)] "2013:9") :=
  ⟨rfl, by decide,
    c2_amended_dry_run { dry_run := true } [(2013, bookA)]
      [("2013:9", failedRec.to_state)] oracleNotFound 0 "2013:9" rfl (by decide)⟩

/-! ### The reconciliation loop under a limit -/

theorem iterPendingGo_some_take (allowed : List Status) (now : DT)
    (year : Option Int) (l : Nat) :
    ∀ (xs : State) (count : Nat), count < l →
    iterPendingGo allowed now year (some l) xs count =
      (iterPendingGo allowed now year none xs count).take (l - count)
  | [], _, _ => by simp [iterPendingGo]
  | (k, p) :: rest, count, hcl => by
    simp only [iterPendingGo]
    by_cases h1 : skipYear year (BookRecord.from_state k p) = true
    · simp only [h1, if_true]
      exact iterPendingGo_some_take allowed now year l rest count hcl
    · by_cases h2 : (BookRecord.from_state k p).status ∈ allowed
      · by_cases h3 : retrySkip (BookRecord.from_state k p) now = true
        · simp only [h1, h2, h3, Bool.false_eq_true, if_false, not_true_eq_false,
            not_false_eq_true, if_true]
          exact iterPendingGo_some_take allowed now year l rest count hcl
        · by_cases h4 : count + 1 ≥ l
          · have hone : l - count = 1 := by omega
            simp [h1, h2, h3, h4, hone]
          · have hrec := iterPendingGo_some_take allowed now year l rest
              (count + 1) (by omega)
            have hsucc : l - count = (l - (count + 1)) + 1 := by omega
            simp [h1, h2, h3, h4, hrec, hsucc]
      · simp only [h1, h2, Bool.false_eq_true, if_false, not_false_eq_true,
          if_true]
        exact iterPendingGo_some_take allowed now year l rest count hcl

theorem iter_pending_some_take (state : State) (now : DT) (year : Option Int)
    (status : Option String) (l : Nat) (hl : 1 ≤ l) :
    iter_pending state now (some l) year status =
      (iter_pending state now none year status).take l := by
  unfold iter_pending
  cases status with
  | none =>
    simpa using iterPendingGo_some_take _ now year l state 0 (by omega)
  | some sv =>
    dsimp only
    cases hf : Status.fromString? sv with
    | none => simp
    | some st =>
      simpa using iterPendingGo_some_take [st] now year l state 0 (by omega)

theorem loopGo_transitioned (oracle : Oracle) (now : DT) (maxA : Int) :
    ∀ (todo : List (String × BookRecord)) (st : State),
    (loopGo oracle now maxA st todo).2.2 = todo.map Prod.fst
  | [], _ => rfl
  | (k, r) :: rest, st => by
    simp only [loopGo, List.map_cons]
    rw [loopGo_transitioned oracle now maxA rest _]

theorem loopGo_frame (oracle : Oracle) (now : DT) (maxA : Int) (k : String) :
    ∀ (todo : List (String × BookRecord)) (st : State),
    k ∉ todo.map Prod.fst →
    stateGet (loopGo oracle now maxA st todo).1 k = stateGet st k
  | [], _, _ => rfl
  | (k', r) :: rest, st, hk => by
    rw [List.map_cons, List.mem_cons, not_or] at hk
    simp only [loopGo]
    rw [loopGo_frame oracle now maxA k rest _ hk.2,
      stateGet_set_ne _ _ _ _ hk.1, stateGet_set_ne _ _ _ _ hk.1]

/-- C9 fails as stated for limit 0: the generator checks the count only
after yielding, so limit 0 still processes one eligible record instead of
`min 0 E = 0`. -/
theorem c9_counterexample :
    (iter_pending fixState5 0 none none none).length = 5 ∧
    (trackLoop fixState5 0 0 none none oracleNotFound 5).2.2.length = 1 ∧
    (trackLoop fixState5 0 0 none none oracleNotFound 5).2.2.length ≠
      min 0 (iter_pending fixState5 0 none none none).length := by
  refine ⟨by decide, by decide, by decide⟩

/-- C9 amended: for every limit N ≥ 1, the loop transitions exactly
`min N E` records — the first `N` eligible ones in key-iteration order — and
every key it does not process keeps its payload unchanged.  (With limit 0
the loop still processes one eligible record, since the limit check runs
only after the first yield.) -/
theorem c9_amended_reconcile_limit (state : State) (now : DT) (l : Nat)
    (year : Option Int) (status : Option String) (oracle : Oracle)
    (maxA : Int) (k : String) (hl : 1 ≤ l)
    (hk : k ∉ (trackLoop state now l year status oracle maxA).2.2) :
    (trackLoop state now l year status oracle maxA).2.2 =
      ((iter_pending state now none year status).map Prod.fst).take l ∧
    (trackLoop state now l year status oracle maxA).2.2.length =
      min l (iter_pending state now none year status).length ∧
    stateGet (trackLoop state now l year status oracle maxA).1 k =
      stateGet state k := by
  have hkeys : (trackLoop state now l year status oracle maxA).2.2 =
      ((iter_pending state now none year status).take l).map Prod.fst := by
    unfold trackLoop
    rw [loopGo_transitioned, iter_pending_some_take state now year status l hl]
  refine ⟨?_, ?_, ?_⟩
  · rw [hkeys, List.map_take]
  · rw [hkeys]
    simp [List.length_take]
  · unfold trackLoop at hk ⊢
    have ht := loopGo_transitioned oracle now maxA
      (iter_pending state now (some l) year status) state
    rw [ht] at hk
    exact loopGo_frame oracle now maxA k _ state hk

/-- Witness for C9 (amended): limit 2 over five eligible records processes
exactly the first two, and the third record's payload is untouched. -/
theorem c9_amended_reconcile_limit_witness :
    1 ≤ 2 ∧
    (_book_key 2013 4 ∉
      (trackLoop fixState5 0 2 none none oracleNotFound 5).2.2) ∧
    ((trackLoop fixState5 0 2 none none oracleNotFound 5).2.2 =
      ((iter_pending fixState5 0 none none none).map Prod.fst).take 2 ∧
     (trackLoop fixState5 0 2 none none oracleNotFound 5).2.2.length =
      min 2 (iter_pending fixState5 0 none none none).length ∧
     stateGet (trackLoop fixState5 0 2 none none oracleNotFound 5).1
        (_book_key 2013 4) =
      stateGet fixState5 (_book_key 2013 4)) :=
  ⟨by decide, by decide,
    c9_amended_reconcile_limit fixState5 0 2 none none oracleNotFound 5
      (_book_key 2013 4) (by decide) (by decide)⟩

end BooksWeLove
